import Mathlib

/-!
Verification development for the LLMR generator (`generate_llmr.py`,
`embedding_integration.py`): a streaming HTML metadata extractor, a
content-type classifier, a keyword extractor, a hash-based embedding, a
record compressor and a site aggregator.

The Python code is shallowly embedded: the parser object becomes an explicit
state record threaded through event handlers; Python ints become `Nat`/`Int`;
Python floats become `ℚ` (with `round` modelled as round-half-to-even, which
is exact for the quotients that actually occur here); fallible operations
(dictionary indexing on non-dicts, unbound-name lookups) return
`Except String`.

Notes on library-function models:
* `str.strip` / `str.lower` are modelled on ASCII whitespace/letters (the
  documents relevant here are ASCII; Python additionally handles Unicode).
* `json.loads` is modelled by a fuel-indexed recursive-descent parser over
  the JSON grammar; numbers are kept as exact rationals.
* `hashlib.md5` is implemented in full (RFC 1321) over byte lists.
-/

namespace LLMR

/-! ## Generic string / list helpers (models of Python primitives) -/

/-- Python truthiness of a string: non-empty. -/
def strTruthy (s : String) : Bool := s ≠ ""

/-- `needle` occurs at the head of `hay` (character lists). -/
def listStartsWith : List Char → List Char → Bool
  | [], _ => true
  | _ :: _, [] => false
  | n :: ns, h :: hs => n = h && listStartsWith ns hs

/-- `needle` occurs somewhere inside `hay` (character lists). -/
def listHasSub (needle : List Char) : List Char → Bool
  | [] => needle.isEmpty
  | h :: hs => listStartsWith needle (h :: hs) || listHasSub needle hs

/-- Python `needle in hay` on strings: substring test. -/
def strContains (hay needle : String) : Bool :=
  listHasSub needle.data hay.data

/-- Maximal runs of characters satisfying `p`, fuel-indexed (any fuel at
least the list length is exact). -/
def runsByAux (p : Char → Bool) : Nat → List Char → List (List Char)
  | 0, _ => []
  | _, [] => []
  | fuel + 1, c :: rest =>
    if p c then
      (c :: rest.takeWhile p) :: runsByAux p fuel (rest.dropWhile p)
    else
      runsByAux p fuel rest

/-- Maximal runs of characters satisfying `p` (used for `str.split()` and
for the lowercase-word tokenizer). -/
def runsBy (p : Char → Bool) (cs : List Char) : List (List Char) :=
  runsByAux p cs.length cs

/-- ASCII whitespace, the model of Python `str.isspace` characters. -/
def isPyWs (c : Char) : Bool :=
  c = ' ' || c = '\t' || c = '\n' || c = '\r' || c = '\x0b' || c = '\x0c'

/-- Python `str.split()` with no argument: maximal non-whitespace runs. -/
def pySplit (s : String) : List String :=
  (runsBy (fun c => !isPyWs c) s.data).map (fun r => String.mk r)

/-- Python `str.strip()` with no argument (ASCII whitespace model). -/
def pyStrip (s : String) : String :=
  String.mk ((s.data.dropWhile isPyWs).reverse.dropWhile isPyWs).reverse

/-- Python `str.lower()` (ASCII model). -/
def pyLower (s : String) : String :=
  String.mk (s.data.map Char.toLower)

/-- Split a character list on a separator character. -/
def splitOnChar (sep : Char) : List Char → List (List Char)
  | [] => [[]]
  | c :: rest =>
    match splitOnChar sep rest with
    | [] => if c = sep then [[], []] else [[c]]
    | h :: t => if c = sep then [] :: h :: t else (c :: h) :: t

/-- Python `s.split(sep)` for a one-character separator. -/
def pySplitOnChar (s : String) (sep : Char) : List String :=
  (splitOnChar sep s.data).map (fun r => String.mk r)

/-- Python `" ".join(xs)`. -/
def joinSp (xs : List String) : String := String.intercalate " " xs

/-- Python slicing `s[:n]` on text: the first `n` code points. -/
def pyTrunc (s : String) (n : Nat) : String := String.mk (s.data.take n)

/-- Python `dict(attrs).get(k, d)`: with duplicate attribute keys the later
binding wins, as in `dict` construction from a pair list. -/
def attrGetD (attrs : List (String × String)) (k d : String) : String :=
  (attrs.foldl (fun acc kv => if kv.1 = k then some kv.2 else acc) none).getD d

/-- Python `k in dict(attrs)`. -/
def attrHas (attrs : List (String × String)) (k : String) : Bool :=
  attrs.any (fun kv => kv.1 = k)

/-- `set`-like deduplication keeping first occurrences (Python set iteration
order is unspecified; every property proved below is order-independent). -/
def dedupFirst (l : List String) : List String :=
  l.foldl (fun acc w => if acc.contains w then acc else acc ++ [w]) []

/-- Mutate the last element of a list (`xs[-1]` assignment). -/
def updLast (f : α → α) : List α → List α
  | [] => []
  | [x] => [f x]
  | x :: y :: xs => x :: updLast f (y :: xs)

/-! ## Rounding models for Python `round` -/

/-- Floor of a rational, by floor-division of numerator by denominator. -/
def ratFloor (q : ℚ) : ℤ := Int.fdiv q.num (q.den : ℤ)

/-- Round-half-to-even on rationals, the model of Python `round(x)`. -/
def roundHE (q : ℚ) : ℤ :=
  let f := ratFloor q
  let r := q - (f : ℚ)
  if r < 1/2 then f
  else if r > 1/2 then f + 1
  else if f % 2 = 0 then f else f + 1

/-- Python `round(n / d)` for naturals (`d > 0`), round-half-to-even.
Exact for the float quotients occurring here (`d = 200`, realistic `n`). -/
def roundHEDiv (n d : Nat) : Nat :=
  let q := n / d
  let r := n % d
  if 2 * r < d then q
  else if 2 * r > d then q + 1
  else if q % 2 = 0 then q else q + 1

/-- Python `round(x, 3)`. -/
def round3 (q : ℚ) : ℚ := (roundHE (q * 1000) : ℚ) / 1000

/-- Python `round(x, 1)`. -/
def round1 (q : ℚ) : ℚ := (roundHE (q * 10) : ℚ) / 10

/-! ## JSON values and a model of `json.loads` -/

/-- Parsed JSON values. Numbers are kept as exact rationals (Python reads
them as floats/ints; the rational is the ideal value). -/
inductive Json where
  | null : Json
  | bool : Bool → Json
  | num : ℚ → Json
  | str : String → Json
  | arr : List Json → Json
  | obj : List (String × Json) → Json

/-- JSON whitespace skipping. -/
def skipWs (cs : List Char) : List Char :=
  cs.dropWhile (fun c => c = ' ' || c = '\t' || c = '\n' || c = '\r')

/-- One hex digit. -/
def hexDigit? (c : Char) : Option Nat :=
  if '0' ≤ c ∧ c ≤ '9' then some (c.toNat - '0'.toNat)
  else if 'a' ≤ c ∧ c ≤ 'f' then some (c.toNat - 'a'.toNat + 10)
  else if 'A' ≤ c ∧ c ≤ 'F' then some (c.toNat - 'A'.toNat + 10)
  else none

/-- Parse the body of a JSON string literal after the opening quote,
returning the string and the input after the closing quote. -/
def parseStrBody : Nat → List Char → Option (List Char × List Char)
  | 0, _ => none
  | _ + 1, [] => none
  | fuel + 1, c :: rest =>
    if c = '"' then some ([], rest)
    else if c = '\\' then
      match rest with
      | [] => none
      | e :: rest2 =>
        let esc : Option (Char × List Char) :=
          if e = '"' then some ('"', rest2)
          else if e = '\\' then some ('\\', rest2)
          else if e = '/' then some ('/', rest2)
          else if e = 'b' then some ('\x08', rest2)
          else if e = 'f' then some ('\x0c', rest2)
          else if e = 'n' then some ('\n', rest2)
          else if e = 'r' then some ('\r', rest2)
          else if e = 't' then some ('\t', rest2)
          else if e = 'u' then
            match rest2 with
            | h1 :: h2 :: h3 :: h4 :: rest3 =>
              match hexDigit? h1, hexDigit? h2, hexDigit? h3, hexDigit? h4 with
              | some a, some b, some c3, some d =>
                some (Char.ofNat (((a * 16 + b) * 16 + c3) * 16 + d), rest3)
              | _, _, _, _ => none
            | _ => none
          else none
        match esc with
        | some (ch, rest3) =>
          match parseStrBody fuel rest3 with
          | some (s, rem) => some (ch :: s, rem)
          | none => none
        | none => none
    else
      match parseStrBody fuel rest with
      | some (s, rem) => some (c :: s, rem)
      | none => none

/-- Digits prefix as a natural number; fails when no digit is present. -/
def parseDigits (cs : List Char) : Option (Nat × Nat × List Char) :=
  let ds := cs.takeWhile Char.isDigit
  if ds.isEmpty then none
  else some (ds.foldl (fun acc c => acc * 10 + (c.toNat - '0'.toNat)) 0,
             ds.length, cs.dropWhile Char.isDigit)

/-- Parse a JSON number (sign, integer part, optional fraction/exponent). -/
def parseNum (cs : List Char) : Option (ℚ × List Char) := do
  let (sgn, cs1) :=
    match cs with
    | '-' :: rest => ((-1 : ℚ), rest)
    | _ => ((1 : ℚ), cs)
  let (ip, _, cs2) ← parseDigits cs1
  let (frac, cs3) :=
    match cs2 with
    | '.' :: rest =>
      match parseDigits rest with
      | some (f, n, rem) => (some ((f : ℚ) / ((10 : ℚ) ^ n)), rem)
      | none => (none, '.' :: rest)
    | _ => (some 0, cs2)
  let fq ← frac
  let (ex, cs4) :=
    match cs3 with
    | 'e' :: rest | 'E' :: rest =>
      match rest with
      | '-' :: rest2 =>
        match parseDigits rest2 with
        | some (e, _, rem) => (some ((10 : ℚ) ^ (-(e : ℤ))), rem)
        | none => (none, cs3)
      | '+' :: rest2 =>
        match parseDigits rest2 with
        | some (e, _, rem) => (some ((10 : ℚ) ^ (e : ℤ)), rem)
        | none => (none, cs3)
      | _ =>
        match parseDigits rest with
        | some (e, _, rem) => (some ((10 : ℚ) ^ (e : ℤ)), rem)
        | none => (none, cs3)
    | _ => (some 1, cs3)
  let eq ← ex
  pure (sgn * ((ip : ℚ) + fq) * eq, cs4)

/-- Insert into an object association list with later-wins semantics, as a
Python `dict` built while parsing a JSON object. -/
def objInsert (kvs : List (String × Json)) (k : String) (v : Json) :
    List (String × Json) :=
  if kvs.any (fun kv => kv.1 = k) then
    kvs.map (fun kv => if kv.1 = k then (k, v) else kv)
  else kvs ++ [(k, v)]

mutual

/-- Parse one JSON value (fuel-indexed recursive descent). -/
def parseVal : Nat → List Char → Option (Json × List Char)
  | 0, _ => none
  | _ + 1, [] => none
  | fuel + 1, c :: rest =>
    if c = '"' then
      match parseStrBody (fuel + 1) rest with
      | some (s, rem) => some (.str (String.mk s), rem)
      | none => none
    else if c = '[' then parseArrItems fuel (skipWs rest) true
    else if c = '{' then parseObjItems fuel (skipWs rest) true []
    else if c = 't' then
      match c :: rest with
      | 't' :: 'r' :: 'u' :: 'e' :: rem => some (.bool true, rem)
      | _ => none
    else if c = 'f' then
      match c :: rest with
      | 'f' :: 'a' :: 'l' :: 's' :: 'e' :: rem => some (.bool false, rem)
      | _ => none
    else if c = 'n' then
      match c :: rest with
      | 'n' :: 'u' :: 'l' :: 'l' :: rem => some (.null, rem)
      | _ => none
    else
      match parseNum (c :: rest) with
      | some (q, rem) => some (.num q, rem)
      | none => none

/-- Items of a JSON array; `first` marks that no item has been read yet
(so `]` closes an empty array). -/
def parseArrItems : Nat → List Char → Bool → Option (Json × List Char)
  | 0, _, _ => none
  | _ + 1, [], _ => none
  | fuel + 1, c :: rest, first =>
    if first ∧ c = ']' then some (.arr [], rest)
    else
      match parseVal fuel (skipWs (c :: rest)) with
      | some (v, rem) =>
        match skipWs rem with
        | ',' :: rem2 =>
          match parseArrItems fuel (skipWs rem2) false with
          | some (.arr vs, rem3) => some (.arr (v :: vs), rem3)
          | _ => none
        | ']' :: rem2 => some (.arr [v], rem2)
        | _ => none
      | none => none

/-- Members of a JSON object (later duplicate keys overwrite, as in the
Python `dict` that `json.loads` builds). -/
def parseObjItems : Nat → List Char → Bool → List (String × Json) →
    Option (Json × List Char)
  | 0, _, _, _ => none
  | _ + 1, [], _, _ => none
  | fuel + 1, c :: rest, first, acc =>
    if first ∧ c = '}' then some (.obj acc, rest)
    else if c = '"' then
      match parseStrBody (fuel + 1) rest with
      | some (k, rem) =>
        match skipWs rem with
        | ':' :: rem2 =>
          match parseVal fuel (skipWs rem2) with
          | some (v, rem3) =>
            let acc2 := objInsert acc (String.mk k) v
            match skipWs rem3 with
            | ',' :: rem4 =>
              match skipWs rem4 with
              | '"' :: rem5 => parseObjItems fuel ('"' :: rem5) false acc2
              | _ => none
            | '}' :: rem4 => some (.obj acc2, rem4)
            | _ => none
          | none => none
        | _ => none
      | none => none
    else none

end

/-- Model of Python `json.loads`: `none` on malformed input
(`json.JSONDecodeError`). -/
def jsonLoads (s : String) : Option Json :=
  match parseVal (s.data.length + 1) (skipWs s.data) with
  | some (v, rem) => if (skipWs rem).isEmpty then some v else none
  | none => none

/-! ## MD5 (RFC 1321), the model of `hashlib.md5` -/

/-- UTF-8 encoding of one character, as byte values. -/
def utf8EncodeCharNat (c : Char) : List Nat :=
  let n := c.toNat
  if n < 0x80 then [n]
  else if n < 0x800 then
    [0xC0 ||| (n >>> 6), 0x80 ||| (n &&& 0x3F)]
  else if n < 0x10000 then
    [0xE0 ||| (n >>> 12), 0x80 ||| ((n >>> 6) &&& 0x3F), 0x80 ||| (n &&& 0x3F)]
  else
    [0xF0 ||| (n >>> 18), 0x80 ||| ((n >>> 12) &&& 0x3F),
     0x80 ||| ((n >>> 6) &&& 0x3F), 0x80 ||| (n &&& 0x3F)]

/-- Python `text.encode()`: UTF-8 bytes of the string. -/
def utf8Bytes (s : String) : List Nat :=
  s.data.foldr (fun c acc => utf8EncodeCharNat c ++ acc) []

/-- 2^32, the word modulus. -/
def M32 : Nat := 4294967296

/-- Left-rotation of a 32-bit word. -/
def rotl32 (x s : Nat) : Nat :=
  ((x <<< s) % M32) ||| (x >>> (32 - s))

/-- The 64 MD5 sine-table constants. -/
def md5K : List Nat :=
  [0xd76aa478, 0xe8c7b756, 0x242070db, 0xc1bdceee,
   0xf57c0faf, 0x4787c62a, 0xa8304613, 0xfd469501,
   0x698098d8, 0x8b44f7af, 0xffff5bb1, 0x895cd7be,
   0x6b901122, 0xfd987193, 0xa679438e, 0x49b40821,
   0xf61e2562, 0xc040b340, 0x265e5a51, 0xe9b6c7aa,
   0xd62f105d, 0x02441453, 0xd8a1e681, 0xe7d3fbc8,
   0x21e1cde6, 0xc33707d6, 0xf4d50d87, 0x455a14ed,
   0xa9e3e905, 0xfcefa3f8, 0x676f02d9, 0x8d2a4c8a,
   0xfffa3942, 0x8771f681, 0x6d9d6122, 0xfde5380c,
   0xa4beea44, 0x4bdecfa9, 0xf6bb4b60, 0xbebfbc70,
   0x289b7ec6, 0xeaa127fa, 0xd4ef3085, 0x04881d05,
   0xd9d4d039, 0xe6db99e5, 0x1fa27cf8, 0xc4ac5665,
   0xf4292244, 0x432aff97, 0xab9423a7, 0xfc93a039,
   0x655b59c3, 0x8f0ccc92, 0xffeff47d, 0x85845dd1,
   0x6fa87e4f, 0xfe2ce6e0, 0xa3014314, 0x4e0811a1,
   0xf7537e82, 0xbd3af235, 0x2ad7d2bb, 0xeb86d391]

/-- Per-round left-rotation amounts. -/
def md5S : List Nat :=
  [7, 12, 17, 22, 7, 12, 17, 22, 7, 12, 17, 22, 7, 12, 17, 22,
   5, 9, 14, 20, 5, 9, 14, 20, 5, 9, 14, 20, 5, 9, 14, 20,
   4, 11, 16, 23, 4, 11, 16, 23, 4, 11, 16, 23, 4, 11, 16, 23,
   6, 10, 15, 21, 6, 10, 15, 21, 6, 10, 15, 21, 6, 10, 15, 21]

/-- MD5 message padding: `0x80`, zeros to 56 mod 64, then the bit length
as 8 little-endian bytes. -/
def md5Pad (msg : List Nat) : List Nat :=
  let len := msg.length
  let zeros := (119 - len % 64) % 64
  msg ++ [0x80] ++ List.replicate zeros 0 ++
    (List.range 8).map (fun i => (((len * 8) % 18446744073709551616) >>> (8 * i)) % 256)

/-- Split a byte list into 64-byte chunks (fuel-indexed; any fuel at least
the list length is exact since every step drops 64 > 0 elements). -/
def chunks64Aux : Nat → List Nat → List (List Nat)
  | 0, _ => []
  | fuel + 1, l =>
    if l.isEmpty then []
    else l.take 64 :: chunks64Aux fuel (l.drop 64)

/-- Split a byte list into 64-byte chunks. -/
def chunks64 (l : List Nat) : List (List Nat) :=
  chunks64Aux l.length l

/-- The `i`-th little-endian 32-bit word of a 64-byte block. -/
def leWord (block : List Nat) (i : Nat) : Nat :=
  block.getD (4 * i) 0 + 256 * block.getD (4 * i + 1) 0 +
    65536 * block.getD (4 * i + 2) 0 + 16777216 * block.getD (4 * i + 3) 0

/-- One MD5 round step. -/
def md5Round (block : List Nat) (st : Nat × Nat × Nat × Nat) (i : Nat) :
    Nat × Nat × Nat × Nat :=
  let (a, b, c, d) := st
  let mask := 4294967295
  let (f, g) :=
    if i < 16 then ((b &&& c) ||| ((b ^^^ mask) &&& d), i)
    else if i < 32 then ((d &&& b) ||| ((d ^^^ mask) &&& c), (5 * i + 1) % 16)
    else if i < 48 then (b ^^^ c ^^^ d, (3 * i + 5) % 16)
    else (c ^^^ (b ||| (d ^^^ mask)), (7 * i) % 16)
  let f2 := (f + a + md5K.getD i 0 + leWord block g) % M32
  (d, (b + rotl32 f2 (md5S.getD i 0)) % M32, b, c)

/-- Process one 64-byte block into the running state. -/
def md5Block (st : Nat × Nat × Nat × Nat) (block : List Nat) :
    Nat × Nat × Nat × Nat :=
  let (a0, b0, c0, d0) := st
  let (a, b, c, d) := (List.range 64).foldl (md5Round block) (a0, b0, c0, d0)
  ((a0 + a) % M32, (b0 + b) % M32, (c0 + c) % M32, (d0 + d) % M32)

/-- MD5 digest of a byte list: the 16 digest bytes. -/
def md5Bytes (msg : List Nat) : List Nat :=
  let (a, b, c, d) :=
    (chunks64 (md5Pad msg)).foldl md5Block
      (0x67452301, 0xefcdab89, 0x98badcfe, 0x10325476)
  [a, b, c, d].flatMap (fun w => (List.range 4).map (fun i => (w >>> (8 * i)) % 256))

/-- `int(hashlib.md5(bytes).hexdigest(), 16)`: the digest read as a
big-endian 128-bit integer (the hex digest lists the bytes in order). -/
def md5HexInt (msg : List Nat) : Nat :=
  (md5Bytes msg).foldl (fun acc byte => acc * 256 + byte) 0

/-! ## `UniversalHTMLParser`: state and event handlers -/

/-- One pending link entry (`self.links` elements). -/
structure Link where
  url : String
  text : String
  rel : String
  title : String
deriving DecidableEq

/-- One image entry. -/
structure Image where
  src : String
  alt : String
  title : String
deriving DecidableEq

/-- One video entry. -/
structure Video where
  src : String
  poster : String
deriving DecidableEq

/-- One code-block entry (`{"tag": tag, "content": ...}`). -/
structure CodeBlock where
  tag : String
  content : String
deriving DecidableEq

/-- One microdata item: `itemtype` plus the (at most one) property captured
from the same tag. -/
structure Microdata where
  type_ : String
  properties : List (String × String)
deriving DecidableEq

/-- One RDFa record. -/
structure Rdfa where
  property : String
  typeof : String
  content : String
deriving DecidableEq

/-- The `self.headings` dictionary with fixed keys h1..h6. -/
structure Headings where
  h1 : List String := []
  h2 : List String := []
  h3 : List String := []
  h4 : List String := []
  h5 : List String := []
  h6 : List String := []
deriving DecidableEq

/-- The heading tag names, in dictionary order (`tag in self.headings`). -/
def headingTags : List String := ["h1", "h2", "h3", "h4", "h5", "h6"]

/-- Append a finished heading text to the level named `tag`. -/
def Headings.append (h : Headings) (tag : String) (v : String) : Headings :=
  if tag = "h1" then { h with h1 := h.h1 ++ [v] }
  else if tag = "h2" then { h with h2 := h.h2 ++ [v] }
  else if tag = "h3" then { h with h3 := h.h3 ++ [v] }
  else if tag = "h4" then { h with h4 := h.h4 ++ [v] }
  else if tag = "h5" then { h with h5 := h.h5 ++ [v] }
  else if tag = "h6" then { h with h6 := h.h6 ++ [v] }
  else h

/-- `self.in_script`: `False`, `True` (plain script), or `"json-ld"`. -/
inductive ScriptMode where
  | off
  | generic
  | jsonLd
deriving DecidableEq

/-- Python truthiness of `self.in_script`. -/
def ScriptMode.truthy : ScriptMode → Bool
  | .off => false
  | _ => true

/-- The mutable state of `UniversalHTMLParser` (its `__init__` fields;
`base_url` and the never-written `self.lists` are omitted as they play no
role in any handler). `og_type` models the `hasattr`-guarded attribute. -/
structure ParserState where
  title : String := ""
  description : String := ""
  keywords : List String := []
  author : String := ""
  language : String := "en"
  canonical_url : String := ""
  headings : Headings := {}
  paragraphs : List String := []
  links : List Link := []
  images : List Image := []
  videos : List Video := []
  code_blocks : List CodeBlock := []
  json_ld_data : List Json := []
  microdata_items : List Microdata := []
  rdfa_data : List Rdfa := []
  current_tag : Option String := none
  tag_stack : List String := []
  in_script : ScriptMode := .off
  in_style : Bool := false
  current_content : List String := []
  word_count : Nat := 0
  estimated_read_time : Nat := 0
  og_type : Option String := none

/-- The freshly constructed parser. -/
def initState : ParserState := {}

/-- `_parse_meta_tag`. -/
def parse_meta_tag (s : ParserState) (attrs : List (String × String)) :
    ParserState :=
  let name := pyLower (attrGetD attrs "name" "")
  let property_name := pyLower (attrGetD attrs "property" "")
  let content := attrGetD attrs "content" ""
  if content = "" then s
  else if name = "description" ∨ property_name = "og:description" then
    { s with description := content }
  else if name = "keywords" then
    { s with keywords :=
        ((pySplitOnChar content ',').map pyStrip).filter (fun k => k ≠ "") }
  else if name = "author" ∨ property_name = "article:author" then
    { s with author := content }
  else if property_name = "og:title" ∧ s.title = "" then
    { s with title := content }
  else if property_name = "og:type" then
    if s.og_type = none then { s with og_type := some content } else s
  else s

/-- `_parse_link_tag`. -/
def parse_link_tag (s : ParserState) (attrs : List (String × String)) :
    ParserState :=
  let rel := attrGetD attrs "rel" ""
  let href := attrGetD attrs "href" ""
  if rel = "canonical" then { s with canonical_url := href } else s

/-- `_parse_microdata`. -/
def parse_microdata (s : ParserState) (attrs : List (String × String)) :
    ParserState :=
  let props :=
    if attrHas attrs "itemprop" then
      [(attrGetD attrs "itemprop" "", attrGetD attrs "content" "")]
    else []
  { s with microdata_items :=
      s.microdata_items ++ [{ type_ := attrGetD attrs "itemtype" "", properties := props }] }

/-- `_parse_rdfa`. -/
def parse_rdfa (s : ParserState) (attrs : List (String × String)) :
    ParserState :=
  { s with rdfa_data := s.rdfa_data ++
      [{ property := attrGetD attrs "property" "",
         typeof := attrGetD attrs "typeof" "",
         content := attrGetD attrs "content" "" }] }

/-- `handle_starttag`. -/
def handle_starttag (s0 : ParserState) (tag : String)
    (attrs : List (String × String)) : ParserState :=
  let s := { s0 with current_tag := some tag, tag_stack := s0.tag_stack ++ [tag] }
  let s :=
    if tag = "meta" then parse_meta_tag s attrs
    else if tag = "link" then parse_link_tag s attrs
    else if tag = "a" ∧ attrHas attrs "href" then
      { s with links := s.links ++
          [{ url := attrGetD attrs "href" "", text := "",
             rel := attrGetD attrs "rel" "", title := attrGetD attrs "title" "" }] }
    else if tag = "img" then
      { s with images := s.images ++
          [{ src := attrGetD attrs "src" "", alt := attrGetD attrs "alt" "",
             title := attrGetD attrs "title" "" }] }
    else if tag = "video" then
      { s with videos := s.videos ++
          [{ src := attrGetD attrs "src" "", poster := attrGetD attrs "poster" "" }] }
    else if tag = "script" then
      if attrGetD attrs "type" "" = "application/ld+json" then
        { s with in_script := .jsonLd }
      else { s with in_script := .generic }
    else if tag = "style" then { s with in_style := true }
    else if tag = "pre" ∨ tag = "code" then
      { s with code_blocks := s.code_blocks ++ [{ tag := tag, content := "" }] }
    else s
  let s := if attrHas attrs "itemscope" then parse_microdata s attrs else s
  let s :=
    if attrHas attrs "property" ∨ attrHas attrs "typeof" ∨ attrHas attrs "vocab"
    then parse_rdfa s attrs else s
  if tag = "html" ∧ attrHas attrs "lang" then
    { s with language := attrGetD attrs "lang" "" }
  else s

/-- `handle_endtag`. -/
def handle_endtag (s0 : ParserState) (tag : String) : ParserState :=
  let s :=
    if s0.tag_stack ≠ [] ∧ s0.tag_stack.getLast? = some tag then
      { s0 with tag_stack := s0.tag_stack.dropLast }
    else s0
  let s :=
    if tag ∈ headingTags ∧ s.current_content ≠ [] then
      let content := pyStrip (joinSp s.current_content)
      let s2 := if content ≠ "" then
          { s with headings := s.headings.append tag content }
        else s
      { s2 with current_content := [] }
    else if tag = "p" ∧ s.current_content ≠ [] then
      let content := pyStrip (joinSp s.current_content)
      let s2 := if content ≠ "" then
          { s with paragraphs := s.paragraphs ++ [content],
                   word_count := s.word_count + (pySplit content).length }
        else s
      { s2 with current_content := [] }
    else if tag = "a" ∧ s.links ≠ [] ∧ s.current_content ≠ [] then
      { s with
        links := (updLast
          (fun l => { l with text := pyStrip (joinSp s.current_content) }) s.links),
        current_content := [] }
    else if (tag = "pre" ∨ tag = "code") ∧ s.code_blocks ≠ [] then
      { s with
        code_blocks := (updLast
          (fun cb => { cb with content := pyStrip (joinSp s.current_content) })
          s.code_blocks),
        current_content := [] }
    else if tag = "script" then
      let s2 :=
        if s.in_script = .jsonLd ∧ s.current_content ≠ [] then
          match jsonLoads (joinSp s.current_content) with
          | some v => { s with json_ld_data := s.json_ld_data ++ [v] }
          | none => s
        else s
      { s2 with in_script := .off, current_content := [] }
    else if tag = "style" then
      { s with in_style := false, current_content := [] }
    else s
  { s with current_tag := s.tag_stack.getLast? }

/-- The tags whose text `handle_data` accumulates. -/
def capturingTags : List String :=
  ["h1", "h2", "h3", "h4", "h5", "h6", "p", "a", "li", "pre", "code"]

/-- `handle_data`. -/
def handle_data (s : ParserState) (dat : String) : ParserState :=
  let d := pyStrip dat
  if d = "" ∨ s.in_style then s
  else if s.in_script.truthy then
    { s with current_content := s.current_content ++ [d] }
  else if s.current_tag = some "title" ∧ s.title = "" then
    { s with title := d }
  else if (s.current_tag.map (capturingTags.contains ·)).getD false then
    { s with current_content := s.current_content ++ [d] }
  else s

/-- One HTML parse event, as delivered by Python `HTMLParser`. Attribute
values are strings (Python reports a valueless attribute as `None`; such an
attribute still registers for the `in`-dict tests modelled by `attrHas`,
and none of the verified properties depend on a `None` value). -/
inductive HtmlEvent where
  | startTag (tag : String) (attrs : List (String × String))
  | endTag (tag : String)
  | data (s : String)

/-- Dispatch one event. -/
def step (s : ParserState) : HtmlEvent → ParserState
  | .startTag tag attrs => handle_starttag s tag attrs
  | .endTag tag => handle_endtag s tag
  | .data d => handle_data s d

/-- Feed a whole event stream (`parser.feed`). -/
def feed (s : ParserState) (evts : List HtmlEvent) : ParserState :=
  evts.foldl step s

/-- `calculate_read_time`: 200 words per minute, only when any word was
counted. -/
def calculate_read_time (s : ParserState) : ParserState :=
  if s.word_count > 0 then
    { s with estimated_read_time := max 1 (roundHEDiv s.word_count 200) }
  else s

/-! ## `ContentTypeDetector` -/

/-- `SCHEMA_TYPES` in source (dict-insertion) order. -/
def schemaTypes : List (String × List String) :=
  [("Article", ["article", "blog", "post", "news"]),
   ("BlogPosting", ["blog", "post"]),
   ("NewsArticle", ["news", "press"]),
   ("Product", ["product", "item", "shop"]),
   ("Event", ["event", "conference", "meetup"]),
   ("Organization", ["about", "company", "organization"]),
   ("Person", ["profile", "author", "bio"]),
   ("WebPage", ["page"]),
   ("HowTo", ["tutorial", "guide", "howto"]),
   ("FAQPage", ["faq", "questions"]),
   ("ContactPage", ["contact"]),
   ("Recipe", ["recipe", "cooking"]),
   ("VideoObject", ["video", "watch"]),
   ("Course", ["course", "training", "learn"]),
   ("JobPosting", ["job", "career", "hiring"]),
   ("Review", ["review", "rating"])]

/-- Python `"@type" in ld` for an arbitrary JSON value: containment is key
membership on dicts, element membership on lists, substring on strings, and
a `TypeError` on non-iterables. -/
def pyContains (v : Json) (k : String) : Except String Bool :=
  match v with
  | .obj kvs => .ok (kvs.any (fun kv => kv.1 = k))
  | .arr xs => .ok (xs.any (fun e => match e with | .str t => t = k | _ => false))
  | .str t => .ok (strContains t k)
  | _ => .error "TypeError: argument is not iterable"

/-- Python `ld["@type"]` for an arbitrary JSON value: dict lookup on dicts,
`TypeError` on strings and lists (string/list indices must be integers). -/
def pyIndex (v : Json) (k : String) : Except String Json :=
  match v with
  | .obj kvs =>
    match kvs.find? (fun kv => kv.1 = k) with
    | some kv => .ok kv.2
    | none => .error "KeyError"
  | .str _ => .error "TypeError: string indices must be integers"
  | .arr _ => .error "TypeError: list indices must be integers"
  | _ => .error "TypeError: value is not subscriptable"

/-- The JSON-LD scan of `detect_type`: first value containing `"@type"`
yields the type (first element when it is a list). -/
def detectFromJsonLd : List Json → Except String (Option Json)
  | [] => .ok none
  | ld :: rest => do
    let b ← pyContains ld "@type"
    if b then
      let t ← pyIndex ld "@type"
      match t with
      | .arr [] => .error "IndexError: list index out of range"
      | .arr (x :: _) => .ok (some x)
      | _ => .ok (some t)
    else detectFromJsonLd rest

/-- The microdata scan: first item with a truthy `type` yields the final
`/`-segment of it. -/
def detectFromMicrodata : List Microdata → Option String
  | [] => none
  | item :: rest =>
    if item.type_ ≠ "" then some ((pySplitOnChar item.type_ '/').getLastD "")
    else detectFromMicrodata rest

/-- The keyword-table scan: first type any of whose trigger keywords occurs
in the URL or in the content haystack. -/
def keywordScan (urlLower haystack : String) :
    List (String × List String) → Option String
  | [] => none
  | (ty, kws) :: rest =>
    if kws.any (fun kw => strContains urlLower kw || strContains haystack kw)
    then some ty
    else keywordScan urlLower haystack rest

/-- The lowercase haystack `detect_type` builds: title, description, all h1
headings, first three paragraphs. -/
def contentHaystack (p : ParserState) : String :=
  pyLower (joinSp [p.title, p.description, joinSp p.headings.h1,
           joinSp (p.paragraphs.take 3)])

/-- `ContentTypeDetector.detect_type`. Returns the raw value found (a JSON
value, since `@type` need not be a string) or the error Python would raise. -/
def detect_type (p : ParserState) (url : String) : Except String Json := do
  match ← detectFromJsonLd p.json_ld_data with
  | some t => return t
  | none =>
  match detectFromMicrodata p.microdata_items with
  | some ty => return .str ty
  | none =>
  match p.og_type with
  | some ty => return .str ty
  | none =>
  match keywordScan (pyLower url) (contentHaystack p) schemaTypes with
  | some ty => return .str ty
  | none => return .str "WebPage"

/-! ## `KeywordExtractor` -/

/-- The built-in stop-word list. -/
def stopWords : List String :=
  ["the", "be", "to", "of", "and", "a", "in", "that", "have", "i",
   "it", "for", "not", "on", "with", "he", "as", "you", "do", "at",
   "this", "but", "his", "by", "from", "they", "we", "say", "her", "she",
   "or", "an", "will", "my", "one", "all", "would", "there", "their", "what",
   "so", "up", "out", "if", "about", "who", "get", "which", "go", "me"]

/-- A Python `\w` word character (ASCII model). -/
def isWordChar (c : Char) : Bool :=
  ('a' ≤ c && c ≤ 'z') || ('A' ≤ c && c ≤ 'Z') || ('0' ≤ c && c ≤ '9') || c = '_'

/-- `re.findall(r'\b[a-z]\x7b3,\x7d\b', text)`: the maximal word-character
runs that consist purely of `a`-`z` and have length at least 3. -/
def findWordTokens (text : String) : List String :=
  ((runsBy isWordChar text.data).filter
    (fun r => decide (3 ≤ r.length) && r.all (fun c => 'a' ≤ c && c ≤ 'z'))).map
    (fun r => String.mk r)

/-- Occurrences of `w` in `l`. -/
def countOcc (l : List String) (w : String) : Nat := l.count w

/-- `Counter(l).most_common(n)` keys: distinct words sorted by descending
count, ties kept in first-occurrence order (counting-sort formulation). -/
def mostCommon (l : List String) (n : Nat) : List String :=
  let d := dedupFirst l
  let maxC := (d.map (countOcc l)).foldr max 0
  (((List.range (maxC + 1)).reverse.map
    (fun c => d.filter (fun w => countOcc l w = c))).flatten).take n

/-- The combined text blob `extract_keywords` builds. -/
def keywordBlob (p : ParserState) : String :=
  joinSp [p.title, p.description, joinSp p.headings.h1, joinSp p.headings.h2,
          joinSp p.paragraphs]

/-- The stop-word-filtered token stream. -/
def filteredWords (p : ParserState) : List String :=
  (findWordTokens (pyLower (keywordBlob p))).filter (fun w => ¬ stopWords.contains w)

/-- `KeywordExtractor.extract_keywords`. The Python `set` union is modelled
as first-occurrence deduplication of declared keywords followed by the
extracted top words; set iteration order is unspecified in Python, and every
property proved about this function is independent of that order. -/
def extract_keywords (p : ParserState) (max_keywords : Nat := 10) : List String :=
  let top_words := mostCommon (filteredWords p) max_keywords
  (dedupFirst (p.keywords ++ top_words.take max_keywords)).take max_keywords

/-! ## `EmbeddingGenerator` / `HashEmbeddings` -/

/-- `EmbeddingGenerator.generate_simple_embedding` and (identically)
`HashEmbeddings.embed`: MD5-seeded pseudo-random vector. -/
def generate_simple_embedding (text : String) (dimensions : Nat := 16) :
    List ℚ :=
  if text = "" then List.replicate dimensions 0
  else
    let hash_val := md5HexInt (utf8Bytes text)
    (List.range dimensions).map (fun i =>
      round3 (((((hash_val >>> (i * 8)) % 200 : Nat) : ℚ) - 100) / 100))

/-- `generate_content_embedding`: embed title, description, h1/h2 headings
and the first five paragraphs. -/
def generate_content_embedding (p : ParserState) : List ℚ :=
  let content_parts := [p.title, p.description, joinSp p.headings.h1,
                        joinSp p.headings.h2, joinSp (p.paragraphs.take 5)]
  generate_simple_embedding (joinSp (content_parts.filter (fun t => t ≠ "")))

/-! ## `LLMRGenerator`: record compressor and site stats -/

/-- One page record as built by `WebsiteScanner._process_page` (the fields
the compressor and the stats pass read; `schema_data`/`json_ld` are carried
along by the pipeline but never read by those two consumers). -/
structure Page where
  id : String
  url : String
  type_ : String
  title : String
  description : String
  keywords : List String
  author : String
  language : String
  word_count : Nat
  read_time : Nat
  headings : Headings
  links_count : Nat
  images_count : Nat
  videos_count : Nat
  code_blocks_count : Nat
  has_structured_data : Bool
  embedding : List ℚ

/-- A compressed page entry: `none` models a key omitted from the dict. -/
structure CompressedPage where
  id : String
  u : String
  t : String
  ti : String
  d : String
  kw : List String
  wc : Nat
  rt : Nat
  emb : List ℚ
  a : Option String
  l : Option String
  sd : Option Nat
  cb : Option Nat
  h1 : Option String

/-- The per-page body of `LLMRGenerator._compress_pages`. -/
def compress_page (page : Page) : CompressedPage :=
  { id := page.id
    u := page.url
    t := page.type_
    ti := pyTrunc page.title 100
    d := pyTrunc page.description 200
    kw := page.keywords.take 10
    wc := page.word_count
    rt := page.read_time
    emb := page.embedding
    a := if strTruthy page.author then some page.author else none
    l := if strTruthy page.language then
           (if page.language ≠ "en" then some page.language else none)
         else none
    sd := if page.has_structured_data then some 1 else none
    cb := if page.code_blocks_count ≠ 0 then
            (if page.code_blocks_count > 0 then some page.code_blocks_count
             else none)
          else none
    h1 := match page.headings.h1 with
          | [] => none
          | h :: _ => some (pyTrunc h 100) }

/-- `LLMRGenerator._compress_pages`. -/
def compress_pages (pages : List Page) : List CompressedPage :=
  pages.map compress_page

/-- The stats object; optional fields model the empty-input case where the
returned dict holds only `total_pages`. -/
structure Stats where
  total_pages : Nat
  total_words : Option Nat := none
  avg_read_time : Option ℚ := none
  pages_with_code : Option Nat := none
  pages_with_structured_data : Option Nat := none
  total_images : Option Nat := none
  total_videos : Option Nat := none
  languages : Option (List String) := none

/-- The condition of the `pages_with_code` generator expression. In the
source it reads `page.get("code_blocks_count", 0) > 0`, but the generator
variable is `p` and no `page` is bound in `_generate_stats`, so evaluating
it raises `NameError`. -/
def pagesWithCodeCond : Except String Bool :=
  .error "NameError: name page is not defined"

/-- `sum(1 for p in pages if page.get("code_blocks_count", 0) > 0)`. -/
def pagesWithCode (pages : List Page) : Except String Nat :=
  pages.foldlM (fun acc _p => do
    let b ← pagesWithCodeCond
    pure (if b then acc + 1 else acc)) 0

/-- The condition of the `pages_with_structured_data` generator expression;
it reads the same unbound `page` name. -/
def pagesWithSdCond : Except String Bool :=
  .error "NameError: name page is not defined"

/-- `sum(1 for p in pages if page.get("has_structured_data"))`. -/
def pagesWithSd (pages : List Page) : Except String Nat :=
  pages.foldlM (fun acc _p => do
    let b ← pagesWithSdCond
    pure (if b then acc + 1 else acc)) 0

/-- `LLMRGenerator._generate_stats`: `{"total_pages": 0}` on the empty
collection, otherwise the dict fields evaluated in order (the two counts
raise `NameError`, which propagates to the caller). -/
def generate_stats (pages : List Page) : Except String Stats :=
  if pages.isEmpty then .ok { total_pages := 0 }
  else do
    let tw := (pages.map Page.word_count).sum
    let art := round1 (((pages.map Page.read_time).sum : ℚ) / (pages.length : ℚ))
    let pwc ← pagesWithCode pages
    let psd ← pagesWithSd pages
    .ok { total_pages := pages.length
          total_words := some tw
          avg_read_time := some art
          pages_with_code := some pwc
          pages_with_structured_data := some psd
          total_images := some (pages.map Page.images_count).sum
          total_videos := some (pages.map Page.videos_count).sum
          languages := some (dedupFirst (pages.map Page.language)) }

/-- Modelled from the spec: the aggregate the spec requires for
`pages_with_code` — "counts of pages with code", i.e. the number of pages
whose `code_blocks_count` is positive (scenario: two pages, one with
`code_blocks_count: 2`, one with none, must yield 1). -/
def pagesWithCodeSpec (pages : List Page) : Nat :=
  pages.countP (fun p => p.code_blocks_count > 0)

/-- Modelled from the spec: the aggregate the spec requires for
`pages_with_structured_data`. -/
def pagesWithSdSpec (pages : List Page) : Nat :=
  pages.countP (fun p => p.has_structured_data)

/-! ## Concrete example documents and page records -/

/-- A page record with two code blocks (cf. the spec scenario for
`pages_with_code`). -/
def pageWithCode : Page where
  id := "a"
  url := "/a.html"
  type_ := "WebPage"
  title := "A"
  description := ""
  keywords := []
  author := ""
  language := "en"
  word_count := 10
  read_time := 1
  headings := {}
  links_count := 0
  images_count := 0
  videos_count := 0
  code_blocks_count := 2
  has_structured_data := false
  embedding := []

/-- A page record with no code blocks. -/
def pageNoCode : Page :=
  { pageWithCode with id := "b", url := "/b.html", code_blocks_count := 0 }

/-- A page whose root element carried `lang=""` (reachable from
`<html lang="">`): the language is the empty string. -/
def pageEmptyLang : Page :=
  { pageWithCode with id := "c", language := "" }

/-- A page exercising every optional field and both truncations. -/
def pageRich : Page :=
  { pageWithCode with
    id := "d"
    title := String.mk (List.replicate 150 't')
    description := String.mk (List.replicate 250 'x')
    author := "Ada"
    language := "fr"
    has_structured_data := true
    headings := { h1 := ["Main Heading"] } }

/-- `<h1>text` followed by a mismatched `</h2>`: the state just before the
close event. -/
def stateH1Text : ParserState :=
  feed initState [.startTag "h1" [], .data "text"]

/-- A JSON-LD script block whose buffered text is `{invalid json`, just
before the closing tag. -/
def stateBadJsonLd : ParserState :=
  feed initState [.startTag "script" [("type", "application/ld+json")],
                  .data "\x7binvalid json"]

/-- A JSON-LD script block whose buffered text is the valid document
`"ok"`, just before the closing tag. -/
def stateGoodJsonLd : ParserState :=
  feed initState [.startTag "script" [("type", "application/ld+json")],
                  .data "\"ok\""]

/-- A full document whose only JSON-LD block parses to a bare JSON string
containing the substring `@type`. -/
def docStringLd : ParserState :=
  feed initState [.startTag "script" [("type", "application/ld+json")],
                  .data "\"has @type inside\"",
                  .endTag "script"]

/-- A parser record whose JSON-LD collection holds one object with
`"@type": "Article"`. -/
def docArticleLd : ParserState :=
  { initState with json_ld_data := [.obj [("@type", .str "Article")]] }

/-- A parser record whose JSON-LD collection holds one object with
`"@type": ["Article", "BlogPosting"]`. -/
def docArticleListLd : ParserState :=
  { initState with
    json_ld_data := [.obj [("@type", .arr [.str "Article", .str "BlogPosting"])]] }

/-- A full document with two JSON-LD blocks: a bare string containing
`@type` followed by an object carrying `"@type": "Article"`. -/
def docStringThenArticle : ParserState :=
  feed initState
    [.startTag "script" [("type", "application/ld+json")],
     .data "\"x @type y\"",
     .endTag "script",
     .startTag "script" [("type", "application/ld+json")],
     .data "\x7b\"@type\": \"Article\"\x7d",
     .endTag "script"]

/-- A parser record whose JSON-LD collection holds a benign string (no
`@type` inside) followed by an object with `"@type": "Article"` preceded by
another key. -/
def docArticleAfterBenign : ParserState :=
  { initState with
    json_ld_data := [.str "benign text",
                     .obj [("a", .null), ("@type", .str "Article")]] }

/-- A small document with declared keywords and body text, for the keyword
extractor. -/
def docKeywords : ParserState :=
  feed initState
    [.startTag "meta" [("name", "keywords"), ("content", "alpha, beta")],
     .startTag "title" [], .data "gamma delta gamma the and", .endTag "title",
     .startTag "p" [], .data "gamma epsilon zeta zeta zeta", .endTag "p"]

/-- Two meta tags both targeting the description field with non-empty
content `A` then `B`. -/
def docTwoDescriptions : ParserState :=
  feed initState
    [.startTag "meta" [("name", "description"), ("content", "A")],
     .startTag "meta" [("name", "description"), ("content", "B")]]

/-- A document with one short paragraph (two words). -/
def docTwoWords : ParserState :=
  feed initState [.startTag "p" [], .data "hello world", .endTag "p"]

/-- The condition of `metaDescContent`: the content a meta start tag writes
into `description`, if any (mirrors the first branch of
`_parse_meta_tag`). -/
def metaDescContent (attrs : List (String × String)) : Option String :=
  let name := pyLower (attrGetD attrs "name" "")
  let property_name := pyLower (attrGetD attrs "property" "")
  let content := attrGetD attrs "content" ""
  if content ≠ "" ∧ (name = "description" ∨ property_name = "og:description")
  then some content
  else none

/-- Word-count weight of one paragraph string. -/
def paraWords (content : String) : Nat := (pySplit content).length

/-! ## Helper lemmas about the event handlers -/

set_option maxRecDepth 10000

/-- The MD5 model matches the RFC 1321 test vectors for the empty string,
`"a"` and `"abc"`, kernel-checked. -/
theorem md5_rfc1321_vectors :
    md5Bytes (utf8Bytes "") =
      [0xd4, 0x1d, 0x8c, 0xd9, 0x8f, 0x00, 0xb2, 0x04,
       0xe9, 0x80, 0x09, 0x98, 0xec, 0xf8, 0x42, 0x7e]
    ∧ md5Bytes (utf8Bytes "a") =
      [0x0c, 0xc1, 0x75, 0xb9, 0xc0, 0xf1, 0xb6, 0xa8,
       0x31, 0xc3, 0x99, 0xe2, 0x69, 0x77, 0x26, 0x61]
    ∧ md5Bytes (utf8Bytes "abc") =
      [0x90, 0x01, 0x50, 0x98, 0x3c, 0xd2, 0x4f, 0xb0,
       0xd6, 0x96, 0x3f, 0x7d, 0x28, 0xe1, 0x7f, 0x72] :=
  ⟨by decide, by decide, by decide⟩

theorem handle_starttag_headings (s : ParserState) (tag : String)
    (attrs : List (String × String)) :
    (handle_starttag s tag attrs).headings = s.headings := by
  simp [handle_starttag, parse_meta_tag, parse_link_tag, parse_microdata,
        parse_rdfa, apply_ite ParserState.headings]

theorem handle_data_headings (s : ParserState) (d : String) :
    (handle_data s d).headings = s.headings := by
  simp [handle_data, apply_ite ParserState.headings]

theorem handle_starttag_paragraphs (s : ParserState) (tag : String)
    (attrs : List (String × String)) :
    (handle_starttag s tag attrs).paragraphs = s.paragraphs := by
  simp [handle_starttag, parse_meta_tag, parse_link_tag, parse_microdata,
        parse_rdfa, apply_ite ParserState.paragraphs]

theorem handle_data_paragraphs (s : ParserState) (d : String) :
    (handle_data s d).paragraphs = s.paragraphs := by
  simp [handle_data, apply_ite ParserState.paragraphs]

theorem handle_starttag_word_count (s : ParserState) (tag : String)
    (attrs : List (String × String)) :
    (handle_starttag s tag attrs).word_count = s.word_count := by
  simp [handle_starttag, parse_meta_tag, parse_link_tag, parse_microdata,
        parse_rdfa, apply_ite ParserState.word_count]

theorem handle_data_word_count (s : ParserState) (d : String) :
    (handle_data s d).word_count = s.word_count := by
  simp [handle_data, apply_ite ParserState.word_count]

theorem handle_starttag_read_time (s : ParserState) (tag : String)
    (attrs : List (String × String)) :
    (handle_starttag s tag attrs).estimated_read_time = s.estimated_read_time := by
  simp [handle_starttag, parse_meta_tag, parse_link_tag, parse_microdata,
        parse_rdfa, apply_ite ParserState.estimated_read_time]

theorem handle_data_read_time (s : ParserState) (d : String) :
    (handle_data s d).estimated_read_time = s.estimated_read_time := by
  simp [handle_data, apply_ite ParserState.estimated_read_time]

theorem handle_endtag_read_time (s : ParserState) (tag : String) :
    (handle_endtag s tag).estimated_read_time = s.estimated_read_time := by
  simp [handle_endtag, apply_ite ParserState.estimated_read_time]
  all_goals split_ifs <;> first | rfl | (try simp_all) <;> (try split) <;> simp_all

theorem handle_endtag_headings (s : ParserState) (tag : String) :
    (handle_endtag s tag).headings =
      if tag ∈ headingTags ∧ s.current_content ≠ [] ∧
          pyStrip (joinSp s.current_content) ≠ "" then
        s.headings.append tag (pyStrip (joinSp s.current_content))
      else s.headings := by
  simp [handle_endtag, apply_ite ParserState.headings]
  all_goals split_ifs <;> first | rfl | (try simp_all) <;> (try split) <;> simp_all

theorem handle_endtag_paragraphs (s : ParserState) (tag : String) :
    (handle_endtag s tag).paragraphs =
      if tag = "p" ∧ s.current_content ≠ [] ∧
          pyStrip (joinSp s.current_content) ≠ "" then
        s.paragraphs ++ [pyStrip (joinSp s.current_content)]
      else s.paragraphs := by
  simp [handle_endtag, apply_ite ParserState.paragraphs]
  all_goals split_ifs <;> first | rfl | (try simp_all [headingTags]) <;>
    (try split) <;> simp_all

theorem handle_endtag_word_count (s : ParserState) (tag : String) :
    (handle_endtag s tag).word_count =
      if tag = "p" ∧ s.current_content ≠ [] ∧
          pyStrip (joinSp s.current_content) ≠ "" then
        s.word_count + paraWords (pyStrip (joinSp s.current_content))
      else s.word_count := by
  simp [handle_endtag, paraWords, apply_ite ParserState.word_count]
  all_goals split_ifs <;> first | rfl | (try simp_all [headingTags]) <;>
    (try split) <;> simp_all

theorem handle_endtag_script_json_ld (s : ParserState) :
    (handle_endtag s "script").json_ld_data =
      (if s.in_script = .jsonLd ∧ s.current_content ≠ [] then
        (match jsonLoads (joinSp s.current_content) with
         | some v => s.json_ld_data ++ [v]
         | none => s.json_ld_data)
      else s.json_ld_data) := by
  simp [handle_endtag, headingTags, apply_ite ParserState.json_ld_data]
  all_goals split_ifs <;> first | rfl | (try simp_all) <;> (try split) <;> simp_all

theorem handle_endtag_script_in_script (s : ParserState) :
    (handle_endtag s "script").in_script = .off := by
  simp [handle_endtag, headingTags, apply_ite ParserState.in_script]
  all_goals split_ifs <;> first | rfl | (try simp_all) <;> (try split) <;> simp_all

theorem step_read_time (s : ParserState) (e : HtmlEvent) :
    (step s e).estimated_read_time = s.estimated_read_time := by
  cases e <;>
    simp [step, handle_starttag_read_time, handle_data_read_time,
          handle_endtag_read_time]

theorem feed_read_time (s : ParserState) (evts : List HtmlEvent) :
    (feed s evts).estimated_read_time = s.estimated_read_time := by
  induction evts generalizing s with
  | nil => rfl
  | cons e rest ih => rw [feed, List.foldl_cons, ← feed, ih, step_read_time]

theorem step_wc_inv (s : ParserState) (e : HtmlEvent)
    (h : s.word_count = (s.paragraphs.map paraWords).sum) :
    (step s e).word_count = ((step s e).paragraphs.map paraWords).sum := by
  cases e with
  | startTag t a =>
    simp [step, handle_starttag_word_count, handle_starttag_paragraphs, h]
  | data d =>
    simp [step, handle_data_word_count, handle_data_paragraphs, h]
  | endTag t =>
    have hs : step s (.endTag t) = handle_endtag s t := rfl
    rw [hs, handle_endtag_word_count, handle_endtag_paragraphs]
    split_ifs <;> simp [h]

theorem feed_wc_inv (s : ParserState) (evts : List HtmlEvent)
    (h : s.word_count = (s.paragraphs.map paraWords).sum) :
    (feed s evts).word_count = ((feed s evts).paragraphs.map paraWords).sum := by
  induction evts generalizing s with
  | nil => exact h
  | cons e rest ih =>
    rw [feed, List.foldl_cons, ← feed]
    exact ih _ (step_wc_inv s e h)

theorem calculate_read_time_word_count (s : ParserState) :
    (calculate_read_time s).word_count = s.word_count := by
  unfold calculate_read_time; split <;> rfl

theorem calculate_read_time_paragraphs (s : ParserState) :
    (calculate_read_time s).paragraphs = s.paragraphs := by
  unfold calculate_read_time; split <;> rfl

theorem handle_data_links (s : ParserState) (d : String) :
    (handle_data s d).links = s.links := by
  simp [handle_data, apply_ite ParserState.links]

theorem handle_data_code_blocks (s : ParserState) (d : String) :
    (handle_data s d).code_blocks = s.code_blocks := by
  simp [handle_data, apply_ite ParserState.code_blocks]

theorem handle_starttag_links (s : ParserState) (tag : String)
    (attrs : List (String × String)) :
    (handle_starttag s tag attrs).links = s.links ∨
      ∃ x, (handle_starttag s tag attrs).links = s.links ++ [x] := by
  simp [handle_starttag, parse_meta_tag, parse_link_tag, parse_microdata,
        parse_rdfa, apply_ite ParserState.links]
  all_goals split_ifs <;> first | (left; rfl) | (right; exact ⟨_, rfl⟩) | simp_all

theorem handle_starttag_code_blocks (s : ParserState) (tag : String)
    (attrs : List (String × String)) :
    (handle_starttag s tag attrs).code_blocks = s.code_blocks ∨
      ∃ x, (handle_starttag s tag attrs).code_blocks = s.code_blocks ++ [x] := by
  simp [handle_starttag, parse_meta_tag, parse_link_tag, parse_microdata,
        parse_rdfa, apply_ite ParserState.code_blocks]
  all_goals split_ifs <;> first | (left; rfl) | (right; exact ⟨_, rfl⟩) | simp_all

theorem handle_endtag_links_ne (s : ParserState) (tag : String)
    (h : tag ≠ "a") :
    (handle_endtag s tag).links = s.links := by
  simp [handle_endtag, apply_ite ParserState.links]
  all_goals split_ifs <;> first | rfl | (try simp_all) <;> (try split) <;> simp_all

theorem handle_endtag_code_blocks_ne (s : ParserState) (tag : String)
    (h : ¬(tag = "pre" ∨ tag = "code")) :
    (handle_endtag s tag).code_blocks = s.code_blocks := by
  simp [handle_endtag, apply_ite ParserState.code_blocks]
  all_goals split_ifs <;> first | rfl | (try simp_all) <;> (try split) <;> simp_all

theorem c2x_links (s : ParserState) (e : HtmlEvent) (i : Nat) (l0 l1 : Link)
    (h0 : s.links[i]? = some l0) (h1 : (step s e).links[i]? = some l1)
    (hne : l1.text ≠ l0.text) : e = .endTag "a" := by
  cases e with
  | data d =>
    rw [show step s (.data d) = handle_data s d from rfl,
        handle_data_links, h0] at h1
    cases h1
    exact absurd rfl hne
  | startTag t a =>
    rw [show step s (.startTag t a) = handle_starttag s t a from rfl] at h1
    rcases handle_starttag_links s t a with heq | ⟨x, heq⟩
    · rw [heq, h0] at h1
      cases h1
      exact absurd rfl hne
    · have hlt : i < s.links.length := (List.getElem?_eq_some.mp h0).1
      rw [heq, List.getElem?_append_left hlt, h0] at h1
      cases h1
      exact absurd rfl hne
  | endTag t =>
    by_cases ht : t = "a"
    · rw [ht]
    · rw [show step s (.endTag t) = handle_endtag s t from rfl,
          handle_endtag_links_ne s t ht, h0] at h1
      cases h1
      exact absurd rfl hne

theorem c2x_code (s : ParserState) (e : HtmlEvent) (i : Nat) (c0 c1 : CodeBlock)
    (h0 : s.code_blocks[i]? = some c0) (h1 : (step s e).code_blocks[i]? = some c1)
    (hne : c1.content ≠ c0.content) : e = .endTag "pre" ∨ e = .endTag "code" := by
  cases e with
  | data d =>
    rw [show step s (.data d) = handle_data s d from rfl,
        handle_data_code_blocks, h0] at h1
    cases h1
    exact absurd rfl hne
  | startTag t a =>
    rw [show step s (.startTag t a) = handle_starttag s t a from rfl] at h1
    rcases handle_starttag_code_blocks s t a with heq | ⟨x, heq⟩
    · rw [heq, h0] at h1
      cases h1
      exact absurd rfl hne
    · have hlt : i < s.code_blocks.length := (List.getElem?_eq_some.mp h0).1
      rw [heq, List.getElem?_append_left hlt, h0] at h1
      cases h1
      exact absurd rfl hne
  | endTag t =>
    by_cases ht : t = "pre" ∨ t = "code"
    · rcases ht with ht | ht
      · left; rw [ht]
      · right; rw [ht]
    · rw [show step s (.endTag t) = handle_endtag s t from rfl,
          handle_endtag_code_blocks_ne s t ht, h0] at h1
      cases h1
      exact absurd rfl hne

/-! ## C1: site stats `pages_with_code` -/

/-- C1: the spec says `pages_with_code` counts the pages whose
`code_blocks_count` is positive and must equal 1 for the two concrete pages
below; but evaluating `_generate_stats` there raises `NameError` (the
generator condition reads the unbound name `page`; its loop variable is
`p`), while the spec-mandated count of those two pages is indeed 1. -/
theorem c1_generate_stats_raises :
    generate_stats [pageWithCode, pageNoCode] =
      .error "NameError: name page is not defined"
    ∧ pagesWithCodeSpec [pageWithCode, pageNoCode] = 1
    ∧ pagesWithSdSpec [pageWithCode, pageNoCode] = 0 := by
  exact ⟨rfl, rfl, rfl⟩

/-! ## C2: content finalization in `handle_endtag` -/

/-- C2 counterexample: feed `<h1>text` and close with a mismatched `</h2>`.
At that event the tag-context stack's top is `"h1"`, not `"h2"`, yet the
text is appended to the `h2` heading list - finalization does not require
the stack top to match the closing tag. -/
theorem c2_counterexample :
    stateH1Text.tag_stack = ["h1"]
    ∧ stateH1Text.headings.h2 = []
    ∧ (step stateH1Text (.endTag "h2")).headings.h2 = ["text"] := by
  exact ⟨rfl, rfl, rfl⟩

/-- C2 (amended): headings and paragraphs gain entries only at an end-tag
event for the corresponding tag with non-empty accumulated content whose
joined, trimmed text is non-empty; similarly the anchor text of an existing
link entry changes only at an `a` end tag and the content of an existing
code-block entry only at a `pre`/`code` end tag - in all cases regardless
of whether the tag-context stack's top matches (the stack-top check only
governs popping); conversely, a heading/paragraph end tag with non-empty
trimmed accumulated content DOES finalize the entry even on a mismatched
stack top; text never followed by such an end tag is never appended. -/
theorem c2_finalize_only_at_end_tag (s : ParserState) (e : HtmlEvent) :
    ((step s e).headings ≠ s.headings →
      ∃ t, e = .endTag t ∧ t ∈ headingTags ∧ s.current_content ≠ [] ∧
        pyStrip (joinSp s.current_content) ≠ "" ∧
        (step s e).headings =
          s.headings.append t (pyStrip (joinSp s.current_content)))
    ∧ ((step s e).paragraphs ≠ s.paragraphs →
      e = .endTag "p" ∧ s.current_content ≠ [] ∧
        pyStrip (joinSp s.current_content) ≠ "" ∧
        (step s e).paragraphs =
          s.paragraphs ++ [pyStrip (joinSp s.current_content)])
    ∧ (∀ (i : Nat) (l0 l1 : Link), s.links[i]? = some l0 →
        (step s e).links[i]? = some l1 →
        l1.text ≠ l0.text → e = .endTag "a")
    ∧ (∀ (i : Nat) (c0 c1 : CodeBlock), s.code_blocks[i]? = some c0 →
        (step s e).code_blocks[i]? = some c1 →
        c1.content ≠ c0.content → e = .endTag "pre" ∨ e = .endTag "code")
    ∧ (∀ t, t ∈ headingTags → e = .endTag t → s.current_content ≠ [] →
        pyStrip (joinSp s.current_content) ≠ "" →
        (step s e).headings =
          s.headings.append t (pyStrip (joinSp s.current_content)))
    ∧ (e = .endTag "p" → s.current_content ≠ [] →
        pyStrip (joinSp s.current_content) ≠ "" →
        (step s e).paragraphs =
          s.paragraphs ++ [pyStrip (joinSp s.current_content)]) := by
  refine ⟨?_, ?_, fun i l0 l1 h0 h1 hne => c2x_links s e i l0 l1 h0 h1 hne,
          fun i c0 c1 h0 h1 hne => c2x_code s e i c0 c1 h0 h1 hne,
          ?_, ?_⟩
  · intro hne
    cases e with
    | startTag t a => exact absurd (handle_starttag_headings s t a) hne
    | data d => exact absurd (handle_data_headings s d) hne
    | endTag t =>
      have hs : step s (.endTag t) = handle_endtag s t := rfl
      rw [hs, handle_endtag_headings] at hne ⊢
      by_cases hc : t ∈ headingTags ∧ s.current_content ≠ [] ∧
          pyStrip (joinSp s.current_content) ≠ ""
      · exact ⟨t, rfl, hc.1, hc.2.1, hc.2.2, by rw [if_pos hc]⟩
      · rw [if_neg hc] at hne; exact absurd rfl hne
  · intro hne
    cases e with
    | startTag t a => exact absurd (handle_starttag_paragraphs s t a) hne
    | data d => exact absurd (handle_data_paragraphs s d) hne
    | endTag t =>
      have hs : step s (.endTag t) = handle_endtag s t := rfl
      rw [hs, handle_endtag_paragraphs] at hne ⊢
      by_cases hc : t = "p" ∧ s.current_content ≠ [] ∧
          pyStrip (joinSp s.current_content) ≠ ""
      · exact ⟨hc.1 ▸ rfl, hc.2.1, hc.2.2, by rw [if_pos hc]⟩
      · rw [if_neg hc] at hne; exact absurd rfl hne
  · intro t ht he hcc hstr
    subst he
    have hs : step s (.endTag t) = handle_endtag s t := rfl
    rw [hs, handle_endtag_headings, if_pos ⟨ht, hcc, hstr⟩]
  · intro he hcc hstr
    subst he
    have hs : step s (.endTag "p") = handle_endtag s "p" := rfl
    rw [hs, handle_endtag_paragraphs, if_pos ⟨rfl, hcc, hstr⟩]

/-- C2 witness: the amended theorem applied to the mismatched-close
document above. -/
theorem c2_witness :
    ∃ t, HtmlEvent.endTag "h2" = .endTag t ∧ t ∈ headingTags ∧
      stateH1Text.current_content ≠ [] ∧
      pyStrip (joinSp stateH1Text.current_content) ≠ "" ∧
      (step stateH1Text (.endTag "h2")).headings =
        stateH1Text.headings.append t (pyStrip (joinSp stateH1Text.current_content)) :=
  (c2_finalize_only_at_end_tag stateH1Text (.endTag "h2")).1 (by decide)

/-! ## C3: read-time finalization -/

/-- C3 counterexample: a document with zero paragraphs has word_count 0 and
estimated read time 0 after finalization (the claim says 1); and a state
with 500 counted words finalizes to 2 (round-half-to-even of 2.5), not the
claimed rounded-up 3. -/
theorem c3_counterexample :
    (calculate_read_time (feed initState [])).word_count = 0
    ∧ (calculate_read_time (feed initState [])).estimated_read_time = 0
    ∧ (calculate_read_time { initState with word_count := 500 }).estimated_read_time = 2 := by
  exact ⟨rfl, rfl, rfl⟩

/-- C3 (amended): after the read-time finalization runs at end of stream,
a document with no paragraphs has `word_count = 0` and
`estimated_read_time = 0` (not 1); and whenever `word_count > 0`,
`estimated_read_time = max 1 (round-half-to-even (word_count / 200))`. -/
theorem c3_read_time (evts : List HtmlEvent) :
    ((calculate_read_time (feed initState evts)).paragraphs = [] →
      (calculate_read_time (feed initState evts)).word_count = 0 ∧
      (calculate_read_time (feed initState evts)).estimated_read_time = 0)
    ∧ ((calculate_read_time (feed initState evts)).word_count > 0 →
      (calculate_read_time (feed initState evts)).estimated_read_time =
        max 1 (roundHEDiv (calculate_read_time (feed initState evts)).word_count 200)) := by
  have hwc : (feed initState evts).word_count =
      ((feed initState evts).paragraphs.map paraWords).sum :=
    feed_wc_inv initState evts rfl
  constructor
  · intro hp
    rw [calculate_read_time_paragraphs] at hp
    have h0 : (feed initState evts).word_count = 0 := by
      rw [hwc, hp]; rfl
    refine ⟨by rw [calculate_read_time_word_count]; exact h0, ?_⟩
    unfold calculate_read_time
    rw [if_neg (by omega)]
    exact feed_read_time initState evts
  · intro hpos
    rw [calculate_read_time_word_count] at hpos
    rw [calculate_read_time_word_count]
    unfold calculate_read_time
    rw [if_pos hpos]

/-- C3 witness: the amended theorem at the empty document and at a
two-word document. -/
theorem c3_witness :
    ((calculate_read_time (feed initState [])).word_count = 0 ∧
      (calculate_read_time (feed initState [])).estimated_read_time = 0)
    ∧ (calculate_read_time
        (feed initState [.startTag "p" [], .data "hello world", .endTag "p"])).estimated_read_time =
      max 1 (roundHEDiv (calculate_read_time
        (feed initState [.startTag "p" [], .data "hello world", .endTag "p"])).word_count 200) :=
  ⟨(c3_read_time []).1 (by decide),
   (c3_read_time [.startTag "p" [], .data "hello world", .endTag "p"]).2 (by decide)⟩

/-! ## C4: description meta handling -/

/-- C4 counterexample: two meta tags with `name=description` and non-empty
contents `A` then `B`; the record ends with description `B` - the later
occurrence overwrites the already-set field, so first-match-wins fails. -/
theorem c4_counterexample :
    docTwoDescriptions.description = "B" ∧ "B" ≠ "A" := by
  exact ⟨rfl, by decide⟩

theorem step_meta_description (s : ParserState) (attrs : List (String × String)) :
    (step s (.startTag "meta" attrs)).description =
      (metaDescContent attrs).getD s.description := by
  simp [step, handle_starttag, parse_meta_tag, parse_link_tag, parse_microdata,
        parse_rdfa, metaDescContent, apply_ite ParserState.description]
  split_ifs <;> simp_all

theorem lastD_cons (c d : String) (xs : List String) :
    ((c :: xs).getLast?).getD d = (xs.getLast?).getD c := by
  cases xs with
  | nil => rfl
  | cons y ys =>
    rw [List.getLast?_cons_cons]
    rcases h : (y :: ys).getLast? with _ | v
    · exact absurd h (by simp)
    · simp

/-- C4 (amended): for any sequence of meta start tags, the final
description is the content of the LAST tag targeting the description field
(`name=description` or `property=og:description`) with non-empty content -
each later occurrence overwrites the field, unlike `og:title`. -/
theorem c4_description_last_wins (metas : List (List (String × String)))
    (s : ParserState) :
    (feed s (metas.map (fun attrs => .startTag "meta" attrs))).description =
      ((metas.filterMap metaDescContent).getLast?).getD s.description := by
  induction metas generalizing s with
  | nil => rfl
  | cons a rest ih =>
    rw [List.map_cons, feed, List.foldl_cons, ← feed, ih]
    rw [List.filterMap_cons]
    cases h : metaDescContent a with
    | none => rw [step_meta_description, h]; rfl
    | some c => rw [step_meta_description, h, lastD_cons]; rfl

/-! ## C5: content-type detection -/

/-- C5 counterexample: a document whose JSON-LD collection CONTAINS an
object with `"@type": "Article"` (its second element) for which the
classifier does not return that value: the bare-string element ahead of it
passes the substring `in` test first and string indexing raises
`TypeError`. -/
theorem c5_counterexample :
    docStringThenArticle.json_ld_data =
      [.str "x @type y", .obj [("@type", .str "Article")]]
    ∧ detect_type docStringThenArticle "/x.html" =
        .error "TypeError: string indices must be integers" := by
  exact ⟨rfl, rfl⟩

theorem detectFromJsonLd_skip (pre tail : List Json)
    (hpre : ∀ ld ∈ pre, pyContains ld "@type" = .ok false) :
    detectFromJsonLd (pre ++ tail) = detectFromJsonLd tail := by
  induction pre with
  | nil => rfl
  | cons a pas ih =>
    rw [List.cons_append]
    have ha : pyContains a "@type" = .ok false := hpre a (by simp)
    simp only [detectFromJsonLd, ha, Bind.bind, Except.bind]
    simp only [if_neg (by simp : ¬(false = true))]
    exact ih (fun ld hm => hpre ld (List.mem_cons_of_mem a hm))

theorem find?_append_none {α : Type} (l1 l2 : List α) (p : α → Bool)
    (h : ∀ x ∈ l1, ¬ p x = true) : (l1 ++ l2).find? p = l2.find? p := by
  induction l1 with
  | nil => rfl
  | cons a l ih =>
    rw [List.cons_append]
    cases hpa : p a with
    | true => exact absurd hpa (h a (by simp))
    | false =>
      rw [List.find?_cons_of_neg _ (by simp [hpa])]
      exact ih (fun x hm => h x (List.mem_cons_of_mem a hm))

theorem detectFromJsonLd_obj (kvs1 kvs2 : List (String × Json)) (val : Json)
    (rest : List Json) (hkv : ∀ kv ∈ kvs1, ¬ kv.1 = "@type") :
    detectFromJsonLd (.obj (kvs1 ++ ("@type", val) :: kvs2) :: rest) =
      (match val with
       | .arr [] => .error "IndexError: list index out of range"
       | .arr (x :: _) => .ok (some x)
       | _ => .ok (some val)) := by
  have hany : (kvs1 ++ ("@type", val) :: kvs2).any
      (fun kv => kv.1 = "@type") = true := by
    simp [List.any_append]
  have hfind : (kvs1 ++ ("@type", val) :: kvs2).find?
      (fun kv => kv.1 = "@type") = some ("@type", val) := by
    rw [find?_append_none _ _ _ (fun kv hm => by simpa using hkv kv hm)]
    exact List.find?_cons_of_pos _ (by simp)
  simp only [detectFromJsonLd, pyContains, pyIndex, hany, hfind,
             Bind.bind, Except.bind, if_pos rfl]
  cases val with
  | arr xs => cases xs <;> rfl
  | null => rfl
  | bool b => rfl
  | num q => rfl
  | str t => rfl
  | obj kvs => rfl

/-- C5 (amended): when the FIRST `@type`-bearing value of the JSON-LD
collection (in Python's `in` sense: key membership for objects, element
membership for lists, substring for strings) is an object with an `@type`
key, the classifier returns that value - exactly `"Article"` when `@type`
is the string `"Article"`, and the first element `"Article"` when it is
the list `["Article", "BlogPosting"]`; a non-object value containing
`@type` ahead of it instead raises `TypeError` (see the counterexample and
C10). With no JSON-LD `@type`, no microdata type, no Open Graph hint and
no trigger keyword in haystack or URL, it returns `"WebPage"`. -/
theorem c5_detect_type (p : ParserState) (url : String)
    (pre : List Json) (kvs1 kvs2 : List (String × Json)) (v rest : List Json)
    (hpre : ∀ ld ∈ pre, pyContains ld "@type" = .ok false)
    (hkv : ∀ kv ∈ kvs1, ¬ kv.1 = "@type") :
    (p.json_ld_data =
        pre ++ .obj (kvs1 ++ ("@type", .str "Article") :: kvs2) :: rest →
      detect_type p url = .ok (.str "Article"))
    ∧ (p.json_ld_data =
        pre ++ .obj (kvs1 ++ ("@type", .arr (.str "Article" :: v)) :: kvs2) :: rest →
      detect_type p url = .ok (.str "Article"))
    ∧ (p.json_ld_data = [] → p.microdata_items = [] → p.og_type = none →
      keywordScan (pyLower url) (contentHaystack p) schemaTypes = none →
      detect_type p url = .ok (.str "WebPage")) := by
  refine ⟨fun h => ?_, fun h => ?_, fun h1 h2 h3 h4 => ?_⟩
  · have hjl : detectFromJsonLd p.json_ld_data = .ok (some (.str "Article")) := by
      rw [h, detectFromJsonLd_skip _ _ hpre, detectFromJsonLd_obj _ _ _ _ hkv]
    simp [detect_type, hjl, Bind.bind, Except.bind, Pure.pure, Except.pure]
  · have hjl : detectFromJsonLd p.json_ld_data = .ok (some (.str "Article")) := by
      rw [h, detectFromJsonLd_skip _ _ hpre, detectFromJsonLd_obj _ _ _ _ hkv]
    simp [detect_type, hjl, Bind.bind, Except.bind, Pure.pure, Except.pure]
  · simp [detect_type, h1, h2, h3, h4, detectFromJsonLd, detectFromMicrodata,
          Bind.bind, Except.bind, Pure.pure, Except.pure]

/-- C5 witness: the string case, the list case, the case with a benign
non-matching value and another key ahead of `@type`, and the WebPage
default, each at a concrete document. -/
theorem c5_witness :
    detect_type docArticleLd "/x.html" = .ok (.str "Article")
    ∧ detect_type docArticleListLd "/x.html" = .ok (.str "Article")
    ∧ detect_type docArticleAfterBenign "/x.html" = .ok (.str "Article")
    ∧ detect_type initState "/x.html" = .ok (.str "WebPage") :=
  ⟨(c5_detect_type docArticleLd "/x.html" [] [] [] [] []
      (by simp) (by simp)).1 rfl,
   (c5_detect_type docArticleListLd "/x.html" [] [] [] [.str "BlogPosting"] []
      (by simp) (by simp)).2.1 rfl,
   (c5_detect_type docArticleAfterBenign "/x.html" [.str "benign text"]
      [("a", .null)] [] [] []
      (fun ld hm => by
        simp only [List.mem_singleton] at hm
        subst hm
        rfl)
      (by decide)).1 rfl,
   (c5_detect_type initState "/x.html" [] [] [] [] []
      (by simp) (by simp)).2.2 rfl rfl rfl (by decide)⟩

/-! ## C6: keyword extraction -/

theorem dedupFirst_aux (l : List String) (acc : List String) (x : String)
    (h : x ∈ l.foldl (fun acc w => if acc.contains w then acc else acc ++ [w]) acc) :
    x ∈ acc ∨ x ∈ l := by
  induction l generalizing acc with
  | nil => exact .inl h
  | cons a rest ih =>
    rw [List.foldl_cons] at h
    rcases ih _ h with h2 | h2
    · by_cases hc : acc.contains a = true
      · simp only [if_pos hc] at h2
        exact .inl h2
      · simp only [if_neg hc] at h2
        rcases List.mem_append.mp h2 with h3 | h3
        · exact .inl h3
        · simp only [List.mem_singleton] at h3
          subst h3
          exact .inr (by simp)
    · exact .inr (List.mem_cons_of_mem _ h2)

theorem mem_dedupFirst (l : List String) (x : String) (h : x ∈ dedupFirst l) :
    x ∈ l := by
  rcases dedupFirst_aux l [] x h with h2 | h2
  · exact absurd h2 (List.not_mem_nil x)
  · exact h2

/-- C6: for any record and max-keyword count `n`, the keyword extractor
returns at most `n` keywords, each of which is either an explicitly
declared keyword or one of the top-`n` most frequent filtered tokens of the
combined title/description/h1/h2/paragraph text. -/
theorem c6_extract_keywords (p : ParserState) (n : Nat) :
    (extract_keywords p n).length ≤ n
    ∧ ∀ k ∈ extract_keywords p n,
        k ∈ p.keywords ∨ k ∈ mostCommon (filteredWords p) n := by
  constructor
  · exact List.length_take_le n _
  · intro k hk
    have h1 : k ∈ dedupFirst (p.keywords ++ (mostCommon (filteredWords p) n).take n) :=
      List.mem_of_mem_take hk
    have h2 := mem_dedupFirst _ _ h1
    rcases List.mem_append.mp h2 with h3 | h3
    · exact .inl h3
    · exact .inr (List.mem_of_mem_take h3)

/-- C6 witness: the extractor bound and membership at a concrete document
with `max_keywords = 3`. -/
theorem c6_witness :
    (extract_keywords docKeywords 3).length ≤ 3
    ∧ ("gamma" ∈ docKeywords.keywords ∨
        "gamma" ∈ mostCommon (filteredWords docKeywords) 3) :=
  ⟨(c6_extract_keywords docKeywords 3).1,
   (c6_extract_keywords docKeywords 3).2 "gamma" (by decide)⟩

/-! ## C7: hash-based embedding -/

theorem roundHE_intCast (z : ℤ) : roundHE ((z : ℚ)) = z := by
  unfold roundHE ratFloor
  simp [Rat.num_intCast, Rat.den_intCast, Int.fdiv_one]

theorem round3_hundredth (m : ℕ) :
    round3 ((((m : ℚ)) - 100) / 100) = (((m : ℚ)) - 100) / 100 := by
  have h : ((((m : ℚ)) - 100) / 100) * 1000 = ((10 * (m : ℤ) - 1000 : ℤ) : ℚ) := by
    push_cast
    ring
  rw [round3, h, roundHE_intCast]
  push_cast
  ring

/-- C7: the hash embedding has length equal to the requested
dimensionality; empty text yields the all-zero vector; every component lies
in [-1, 1]; and for non-empty text component `i` is
`round((((md5_int >> (i*8)) % 200) - 100) / 100, 3)`. -/
theorem c7_embedding (text : String) (dims : Nat) :
    (generate_simple_embedding text dims).length = dims
    ∧ generate_simple_embedding "" dims = List.replicate dims 0
    ∧ (∀ x ∈ generate_simple_embedding text dims, -1 ≤ x ∧ x ≤ 1)
    ∧ (text ≠ "" → ∀ i, i < dims →
        (generate_simple_embedding text dims)[i]? =
          some (round3 (((((md5HexInt (utf8Bytes text) >>> (i * 8)) % 200 : ℕ) : ℚ) - 100) / 100))) := by
  refine ⟨?_, by simp [generate_simple_embedding], ?_, ?_⟩
  · unfold generate_simple_embedding
    split_ifs <;> simp
  · intro x hx
    unfold generate_simple_embedding at hx
    split_ifs at hx with he
    · rw [List.eq_of_mem_replicate hx]
      norm_num
    · rcases List.mem_map.mp hx with ⟨i, _, hval⟩
      rw [← hval, round3_hundredth]
      have hmn : (md5HexInt (utf8Bytes text) >>> (i * 8)) % 200 < 200 :=
        Nat.mod_lt _ (by norm_num)
      have hm : ((((md5HexInt (utf8Bytes text) >>> (i * 8)) % 200 : ℕ) : ℚ)) < 200 := by
        exact_mod_cast hmn
      have hm0 : (0 : ℚ) ≤ ((md5HexInt (utf8Bytes text) >>> (i * 8)) % 200 : ℕ) :=
        Nat.cast_nonneg _
      constructor
      · rw [le_div_iff (by norm_num : (0:ℚ) < 100)]
        push_cast
        linarith
      · rw [div_le_iff (by norm_num : (0:ℚ) < 100)]
        push_cast
        linarith
  · intro h i hi
    simp [generate_simple_embedding, h, List.getElem?_map, List.getElem?_range, hi]

/-- C7 witness: the bound clause at the empty text and the component
formula at text `"a"`, dimension 16, component 0. -/
theorem c7_witness :
    (-1 ≤ (0 : ℚ) ∧ (0 : ℚ) ≤ 1)
    ∧ (generate_simple_embedding "a" 16)[0]? =
        some (round3 (((((md5HexInt (utf8Bytes "a") >>> (0 * 8)) % 200 : ℕ) : ℚ) - 100) / 100)) :=
  ⟨(c7_embedding "" 2).2.2.1 0 (by simp [generate_simple_embedding, List.mem_replicate]),
   (c7_embedding "a" 16).2.2.2 (by decide) 0 (by decide)⟩

/-! ## C8: the record compressor -/

theorem pyTrunc_length (s : String) (n : Nat) :
    (pyTrunc s n).length = min n s.length := by
  show (s.data.take n).length = min n s.data.length
  exact List.length_take n s.data

/-- C8 counterexample: a page whose root element carried `lang=""` has a
language that differs from `"en"`, yet the compressor omits the `l` key
(the truthiness guard fires first), falsifying the claimed iff. -/
theorem c8_counterexample :
    (compress_page pageEmptyLang).l = none ∧ pageEmptyLang.language ≠ "en" := by
  exact ⟨rfl, by decide⟩

/-- C8 (amended): titles are truncated to at most 100 characters and
descriptions to at most 200 (exactly 200 when longer); `a` is present iff
the author is non-empty, `l` iff the language is NON-EMPTY and differs from
`"en"`, `sd` iff the page has structured data, `cb` iff
`code_blocks_count > 0`, and `h1` iff some h1 heading exists; an absent
optional field is `none` (omitted), never an empty value. -/
theorem c8_compress (page : Page) :
    (compress_page page).ti.length ≤ 100
    ∧ (compress_page page).d.length ≤ 200
    ∧ (200 < page.description.length → (compress_page page).d.length = 200)
    ∧ ((compress_page page).l ≠ none ↔
        (page.language ≠ "" ∧ page.language ≠ "en"))
    ∧ ((compress_page page).a ≠ none ↔ page.author ≠ "")
    ∧ ((compress_page page).sd ≠ none ↔ page.has_structured_data = true)
    ∧ ((compress_page page).cb ≠ none ↔ 0 < page.code_blocks_count)
    ∧ ((compress_page page).h1 ≠ none ↔ page.headings.h1 ≠ []) := by
  refine ⟨?_, ?_, ?_, ?_, ?_, ?_, ?_, ?_⟩
  · show (pyTrunc page.title 100).length ≤ 100
    rw [pyTrunc_length]
    exact min_le_left _ _
  · show (pyTrunc page.description 200).length ≤ 200
    rw [pyTrunc_length]
    exact min_le_left _ _
  · intro hlen
    show (pyTrunc page.description 200).length = 200
    rw [pyTrunc_length]
    omega
  · show (if strTruthy page.language then
        (if page.language ≠ "en" then some page.language else none)
      else none) ≠ none ↔ _
    simp [strTruthy]
    all_goals split_ifs <;> simp_all
  · show (if strTruthy page.author then some page.author else none) ≠ none ↔ _
    simp [strTruthy]
    all_goals split_ifs <;> simp_all
  · show (if page.has_structured_data then some 1 else none) ≠ none ↔ _
    split_ifs <;> simp_all
  · show (if page.code_blocks_count ≠ 0 then
        (if page.code_blocks_count > 0 then some page.code_blocks_count else none)
      else none) ≠ none ↔ _
    split_ifs <;> simp_all <;> omega
  · show (match page.headings.h1 with
      | [] => none
      | h :: _ => some (pyTrunc h 100)) ≠ none ↔ _
    cases page.headings.h1 <;> simp

set_option maxRecDepth 100000

/-- C8 witness: the exact-200 truncation clause at a page with a
250-character description. -/
theorem c8_witness :
    (compress_page pageRich).d.length = 200 :=
  (c8_compress pageRich).2.2.1 (by
    have h : pageRich.description.length = 250 := rfl
    omega)

/-! ## C9 and C10: JSON-LD script blocks -/

/-- C9: closing a JSON-LD script block whose buffered text is not valid
JSON leaves the JSON-LD collection unchanged (the block contributes zero
entries and no exception escapes - `step` is total), while a block whose
text parses contributes exactly its value; capture mode is exited either
way. -/
theorem c9_json_ld_blocks (s : ParserState) (h1 : s.in_script = .jsonLd) :
    (jsonLoads (joinSp s.current_content) = none →
      (step s (.endTag "script")).json_ld_data = s.json_ld_data)
    ∧ (∀ v, jsonLoads (joinSp s.current_content) = some v →
        s.current_content ≠ [] →
        (step s (.endTag "script")).json_ld_data = s.json_ld_data ++ [v])
    ∧ (step s (.endTag "script")).in_script = .off := by
  have hs : step s (.endTag "script") = handle_endtag s "script" := rfl
  refine ⟨fun hp => ?_, fun v hp hne => ?_, ?_⟩
  · rw [hs, handle_endtag_script_json_ld]
    by_cases hc : s.in_script = ScriptMode.jsonLd ∧ s.current_content ≠ []
    · rw [if_pos hc, hp]
    · rw [if_neg hc]
  · rw [hs, handle_endtag_script_json_ld, if_pos ⟨h1, hne⟩, hp]
  · rw [hs]
    exact handle_endtag_script_in_script s

/-- C9 witness: the malformed block `\x7binvalid json` contributes zero
entries while the valid block `"ok"` is still collected. -/
theorem c9_witness :
    ((step stateBadJsonLd (.endTag "script")).json_ld_data =
      stateBadJsonLd.json_ld_data)
    ∧ ((step stateGoodJsonLd (.endTag "script")).json_ld_data =
      stateGoodJsonLd.json_ld_data ++ [.str "ok"])
    ∧ (step stateBadJsonLd (.endTag "script")).in_script = .off :=
  ⟨(c9_json_ld_blocks stateBadJsonLd rfl).1 rfl,
   (c9_json_ld_blocks stateGoodJsonLd rfl).2.1 (.str "ok") rfl (by decide),
   (c9_json_ld_blocks stateBadJsonLd rfl).2.2⟩

/-- C10: a document whose JSON-LD block parses to a bare JSON string
containing the substring `@type` (script text `"has @type inside"` with the
quotes) makes `detect_type` raise `TypeError`: the `in` test succeeds by
substring containment, then string indexing with a string key fails. -/
theorem c10_detect_type_typeerror :
    docStringLd.json_ld_data = [.str "has @type inside"]
    ∧ detect_type docStringLd "/x.html" =
        .error "TypeError: string indices must be integers" := by
  exact ⟨rfl, rfl⟩

end LLMR
